import Mathlib

/-!
Verification development for the stock screener (src/screentracker.py).

The program is a sequential batch job: fetch two ticker lists, fetch
per-ticker fundamentals and price history, compute a 200-day moving
average, assemble one flat record per symbol, clean missing values with
fillna(0), filter by a fixed conjunction of thresholds, and report.

Python floats are modelled as rationals; the thresholds and all
comparisons in the program are exact at that granularity.  Pandas
Series/DataFrame columns are modelled as Lean lists of records; the
boolean-mask row selection df[final_filter] is List.filter.
-/

namespace ScreenTracker

/-! ### Filtering criteria (source lines 22-25)

In the source these are the module-level constants MAX_PE_RATIO = 25.0,
MAX_PB_RATIO = 1.5, MIN_DIV_YIELD = 0.02 and MIN_AVG_VOLUME = 100000.
They are grouped here into an explicit threshold configuration so that
the filter can also be stated for alternative thresholds (the spec's
monotonicity property quantifies over them). -/

structure Thresholds where
  max_pe : ℚ
  max_pb : ℚ
  min_div_yield : ℚ
  min_avg_volume : ℚ
deriving DecidableEq, Repr

/-- The fixed configuration of source lines 22-25. -/
def defaultThresholds : Thresholds :=
  Thresholds.mk 25.0 1.5 0.02 100000

/-! ### The cleaned record (DataFrame row after fillna, lines 183-190)

One row of the DataFrame handed to the filter stage: the numeric columns
P/E, P/B, AvgVolume, DivYield, Current Price and 200-DMA, indexed by
Symbol.  Company and Sector are carried along but never filtered on.
After df.fillna(0) every numeric column holds an actual number, so the
fields are plain rationals here; pd.to_numeric on such a column is the
identity. -/

structure StockRecord where
  symbol : String
  company : String
  sector : String
  pe : ℚ
  pb : ℚ
  avgVolume : ℚ
  divYield : ℚ
  currentPrice : ℚ
  ma200 : ℚ
deriving DecidableEq, Repr

/-! ### The Filter Engine (run_screener, source lines 201-226) -/

/-- conditie_pe (line 201): P/E below the maximum. -/
def conditie_pe (t : Thresholds) (r : StockRecord) : Bool :=
  decide (r.pe < t.max_pe)

/-- conditie_pb (line 202): P/B below the maximum. -/
def conditie_pb (t : Thresholds) (r : StockRecord) : Bool :=
  decide (r.pb < t.max_pb)

/-- conditie_div (line 203): dividend yield above the minimum. -/
def conditie_div (t : Thresholds) (r : StockRecord) : Bool :=
  decide (r.divYield > t.min_div_yield)

/-- conditie_volum (line 204): average volume above the minimum. -/
def conditie_volum (t : Thresholds) (r : StockRecord) : Bool :=
  decide (r.avgVolume > t.min_avg_volume)

/-- conditie_ma (line 207): current price above the 200-day moving average. -/
def conditie_ma (r : StockRecord) : Bool :=
  decide (r.currentPrice > r.ma200)

/-- conditie_validitate (line 210): P/E and P/B strictly positive. -/
def conditie_validitate (r : StockRecord) : Bool :=
  decide (r.pe > 0) && decide (r.pb > 0)

/-- conditie_ma_validitate (line 211): the 200-DMA was actually computed. -/
def conditie_ma_validitate (r : StockRecord) : Bool :=
  decide (r.ma200 > 0)

/-- final_filter (lines 214-222): the conjunction of all conditions. -/
def final_filter (t : Thresholds) (r : StockRecord) : Bool :=
  conditie_pe t r &&
  conditie_pb t r &&
  conditie_div t r &&
  conditie_ma r &&
  conditie_volum t r &&
  conditie_validitate r &&
  conditie_ma_validitate r

/-- final_results (line 226): df[final_filter], i.e. the rows of the
DataFrame whose mask entry is true, in order. -/
def final_results (t : Thresholds) (df : List StockRecord) : List StockRecord :=
  df.filter (final_filter t)

/-! ### Ticker Source Adapter (lines 30-101)

Each source is fetched over HTTP and parsed; any exception makes the
whole try-block yield the empty list.  The fetch-and-parse part is
modelled as an oracle of type Option (List String): none means some
exception was raised while fetching or parsing, some col means the
designated symbol column was extracted as the list col. -/

/-- Python str.replace(old, new) with regex=False: every non-overlapping
occurrence of the literal substring old is replaced by new, scanning
left to right.  (The source only ever calls it with the one-character
pattern "." and replacement "-"; the isEmpty guard mirrors the fact
that a nonempty pattern always consumes at least one character.) -/
def replaceAll (old new : List Char) : List Char → List Char
  | [] => []
  | c :: rest =>
    if old.isPrefixOf (c :: rest) && !old.isEmpty then
      new ++ replaceAll old new (rest.drop (old.length - 1))
    else
      c :: replaceAll old new rest
termination_by l => l.length
decreasing_by
  · simp only [List.length_drop, List.length_cons]
    omega
  · simp

/-- Line 52: the per-symbol normalization of source A,
str.replace(".", "-", regex=False). -/
def sp500_normalize (s : String) : String :=
  String.mk (replaceAll ['.'] ['-'] s.data)

/-- Line 79: the per-symbol normalization of source B, appending ".L". -/
def ftse_normalize (s : String) : String :=
  s ++ ".L"

/-- get_sp500_tickers (lines 30-57): on any fetch/parse exception return
the empty list, otherwise normalize every entry of the Symbol column. -/
def get_sp500_tickers (fetched : Option (List String)) : List String :=
  match fetched with
  | none => []
  | some col => col.map sp500_normalize

/-- get_ftse100_tickers (lines 60-84): on any fetch/parse exception
return the empty list, otherwise append ".L" to every entry of the
Ticker column. -/
def get_ftse100_tickers (fetched : Option (List String)) : List String :=
  match fetched with
  | none => []
  | some col => col.map ftse_normalize

/-- get_stock_tickers (lines 87-101): truncate each source to its first
20 entries and concatenate, S&P 500 first. -/
def get_stock_tickers (spFetch ftseFetch : Option (List String)) : List String :=
  (get_sp500_tickers spFetch).take 20 ++ (get_ftse100_tickers ftseFetch).take 20

/-! ### Indicator Calculator (lines 127-130)

history is the price-history window; only its Close column matters, so
it is modelled as the list of closing prices in chronological order.
history.rolling(window=200).mean().iloc[-1] is the arithmetic mean of
the last 200 entries; it is only evaluated when the window has at least
200 entries, and ma_200 stays at its initial value 0 otherwise. -/

/-- Lines 128-130: the 200-day simple moving average, or the sentinel 0
when the window is shorter than 200 points. -/
def ma_200_of (history : List ℚ) : ℚ :=
  if 200 ≤ history.length then
    (history.drop (history.length - 200)).sum / 200
  else
    0

/-! ### Market Data Adapter and per-symbol assembly (lines 106-159)

The remote provider is modelled as a per-ticker oracle: stock.info
either raises (none) or yields a dictionary of optional fields, and
stock.history(period="210d") either raises (none) or yields a window of
closing prices.  info.get(key) is Option-valued: a missing key is none. -/

/-- The fields of the stock.info dictionary that the program reads
(lines 135-141); each may be absent. -/
structure Info where
  shortName : Option String
  sector : Option String
  trailingPE : Option ℚ
  priceToBook : Option ℚ
  averageVolume : Option ℚ
  dividendYield : Option ℚ
  currentPrice : Option ℚ
deriving DecidableEq, Repr

/-- The oracle for one loop iteration of get_stock_data: what the two
provider calls for this ticker do (raise, or return a value). -/
structure TickerFetch where
  ticker : String
  info : Option Info
  history : Option (List ℚ)
deriving DecidableEq, Repr

/-- The data dictionary built at lines 133-143: snapshot fields, still
optional (info.get may give None), plus the computed 200-DMA. -/
structure RawRecord where
  symbol : String
  company : Option String
  sector : Option String
  pe : Option ℚ
  pb : Option ℚ
  avgVolume : Option ℚ
  divYield : Option ℚ
  currentPrice : Option ℚ
  ma200 : ℚ
deriving DecidableEq, Repr

/-- Lines 133-143: assembling the data dictionary for one ticker. -/
def mkData (ticker : String) (info : Info) (ma : ℚ) : RawRecord :=
  RawRecord.mk ticker info.shortName info.sector info.trailingPE
    info.priceToBook info.averageVolume info.dividendYield
    info.currentPrice ma

/-- One iteration of the loop at lines 115-157, up to the point where
stock_data can grow: none when the iteration appends nothing (an
exception was raised before the append at line 145), some r when the
record r is appended.  The progress print at lines 148-149 runs after
the append, so an exception it raises cannot remove the record. -/
def fetchResult (t : TickerFetch) : Option RawRecord :=
  match t.info with
  | none => none
  | some info =>
    match t.history with
    | none => none
    | some history => some (mkData t.ticker info (ma_200_of history))

/-- Whether the try-block of the iteration for t raises an exception
anywhere: stock.info raising, stock.history raising, or the progress
print at lines 148-149, whose format specifier :.2f on the P/E value
raises TypeError when that value is None. -/
def stepRaises (t : TickerFetch) : Bool :=
  match t.info with
  | none => true
  | some info =>
    match t.history with
    | none => true
    | some _ => info.trailingPE.isNone

/-- get_stock_data (lines 106-159): iterate over the tickers, appending
each iteration's record (if any) to stock_data; every exception is
caught and the loop continues with the next ticker. -/
def get_stock_data (tickers : List TickerFetch) : List RawRecord :=
  tickers.filterMap fetchResult

/-! ### DataFrame conversion and cleaning (lines 183-190)

pd.DataFrame(stock_data) turns the dictionaries into rows; a cell of a
pandas column is either missing (None in an object column, NaN in a
numeric one) or holds a value, which is either a number or a string.
df.fillna(0) then replaces every missing cell with the number 0,
regardless of the column's dtype. -/

/-- A present DataFrame cell value: a number or a string. -/
inductive CellValue
  | num : ℚ → CellValue
  | str : String → CellValue
deriving DecidableEq, Repr

/-- One row of the DataFrame after set_index("Symbol") (lines 183-186):
the Symbol is the index, every other cell may be missing (none). -/
structure DFRow where
  symbol : String
  company : Option CellValue
  sector : Option CellValue
  pe : Option CellValue
  pb : Option CellValue
  avgVolume : Option CellValue
  divYield : Option CellValue
  currentPrice : Option CellValue
  ma200 : Option CellValue
deriving DecidableEq, Repr

/-- pd.DataFrame(stock_data) followed by set_index("Symbol") on one
assembled dictionary: string fields become string cells, numeric fields
numeric cells, a Python None becomes a missing cell. -/
def toDFRow (r : RawRecord) : DFRow :=
  DFRow.mk r.symbol (r.company.map CellValue.str) (r.sector.map CellValue.str)
    (r.pe.map CellValue.num) (r.pb.map CellValue.num)
    (r.avgVolume.map CellValue.num) (r.divYield.map CellValue.num)
    (r.currentPrice.map CellValue.num) (some (CellValue.num r.ma200))

/-- df.fillna(0) (line 190) on one row: every missing cell becomes the
number 0; present cells are untouched. -/
def fillna0 (row : DFRow) : DFRow :=
  DFRow.mk row.symbol
    (some (row.company.getD (CellValue.num 0)))
    (some (row.sector.getD (CellValue.num 0)))
    (some (row.pe.getD (CellValue.num 0)))
    (some (row.pb.getD (CellValue.num 0)))
    (some (row.avgVolume.getD (CellValue.num 0)))
    (some (row.divYield.getD (CellValue.num 0)))
    (some (row.currentPrice.getD (CellValue.num 0)))
    (some (row.ma200.getD (CellValue.num 0)))

/-- Whether a row still has a missing cell in some column. -/
def hasNull (row : DFRow) : Bool :=
  row.company.isNone || row.sector.isNone || row.pe.isNone ||
  row.pb.isNone || row.avgVolume.isNone || row.divYield.isNone ||
  row.currentPrice.isNone || row.ma200.isNone

/-! ### Reporter (lines 228-258)

After filtering, run_screener either prints the no-match message (empty
result) or prints the table and attempts to save a CSV; a failing save
is caught at lines 257-258 and only logged.  The observable outcome of
this tail of run_screener is modelled as a record of what happened; the
persistence oracle saveOk says whether final_results.to_csv succeeds. -/

structure ReportOutcome where
  noMatchNotice : Bool
  persistAttempted : Bool
  persistErrorLogged : Bool
  completedNormally : Bool
deriving DecidableEq, Repr

/-- Lines 228-258: the reporting tail of run_screener. -/
def report (results : List StockRecord) (saveOk : Bool) : ReportOutcome :=
  if results.isEmpty then
    ReportOutcome.mk true false false true
  else
    ReportOutcome.mk false true (!saveOk) true

/-! ### Concrete records used by witnesses -/

/-- Record X of the spec's end-to-end scenario (every filter passes). -/
def recX : StockRecord :=
  StockRecord.mk "X" "XCo" "Tech" 18 1.2 500000 0.03 110 100

/-- A record with P/E = 0 and every other condition passing. -/
def recPEZero : StockRecord :=
  StockRecord.mk "Z" "ZCo" "Tech" 0 1.2 500000 0.03 110 100

/-- A record with 200-DMA = 0 and every other condition passing. -/
def recMAZero : StockRecord :=
  StockRecord.mk "M" "MCo" "Tech" 18 1.2 500000 0.03 50 0

/-! ### Lemmas about the Filter Engine -/

/-- The mask entry of one row, written out as the conjunction of the
seven comparisons of lines 201-222. -/
theorem final_filter_eq_true_iff (t : Thresholds) (r : StockRecord) :
    final_filter t r = true ↔
      (r.pe < t.max_pe ∧ r.pb < t.max_pb ∧ r.divYield > t.min_div_yield ∧
       r.currentPrice > r.ma200 ∧ r.avgVolume > t.min_avg_volume ∧
       (r.pe > 0 ∧ r.pb > 0) ∧ r.ma200 > 0) := by
  simp [final_filter, conditie_pe, conditie_pb, conditie_div, conditie_ma,
    conditie_volum, conditie_validitate, conditie_ma_validitate,
    Bool.and_eq_true, decide_eq_true_eq, and_assoc]

/-- C1: with the fixed thresholds (max_pe = 25.0, max_pb = 1.5,
min_div_yield = 0.02, min_avg_volume = 100000), a record of the input
set is in the Filter Engine's output iff all six conditions hold: P/E
strictly between 0 and 25, P/B strictly between 0 and 1.5, dividend
yield above 0.02, average volume above 100000, current price above the
200-DMA, and 200-DMA positive. -/
theorem mem_final_results_iff (df : List StockRecord) (r : StockRecord)
    (h : r ∈ df) :
    r ∈ final_results defaultThresholds df ↔
      (0 < r.pe ∧ r.pe < 25.0 ∧
       0 < r.pb ∧ r.pb < 1.5 ∧
       r.divYield > 0.02 ∧
       r.avgVolume > 100000 ∧
       r.currentPrice > r.ma200 ∧
       0 < r.ma200) := by
  rw [final_results, List.mem_filter, final_filter_eq_true_iff]
  simp only [h, true_and, defaultThresholds]
  constructor <;> intro hh <;> tauto

/-- Witness for C1: the scenario record X is in the filtered output of
the singleton set containing it. -/
theorem mem_final_results_iff_witness :
    recX ∈ final_results defaultThresholds [recX] :=
  (mem_final_results_iff [recX] recX (by simp)).mpr (by norm_num [recX])

/-- C4: a record with P/E = 0 is excluded from the filtered output even
when every other condition passes, and a record with 200-DMA = 0 is
excluded regardless of its current price and of all other fields. -/
theorem zero_pe_or_zero_ma_excluded (df : List StockRecord)
    (r : StockRecord) :
    (r.pe = 0 → r ∉ final_results defaultThresholds df) ∧
    (r.ma200 = 0 → r ∉ final_results defaultThresholds df) := by
  constructor <;> intro hz hmem <;>
    have hf := (final_filter_eq_true_iff defaultThresholds r).mp
      (List.mem_filter.mp hmem).2
  · have hpe : 0 < r.pe := hf.2.2.2.2.2.1.1
    rw [hz] at hpe
    exact lt_irrefl 0 hpe
  · have hma : 0 < r.ma200 := hf.2.2.2.2.2.2
    rw [hz] at hma
    exact lt_irrefl 0 hma

/-- Witness for C4: the P/E = 0 record and the 200-DMA = 0 record, each
with every other condition passing, are excluded. -/
theorem zero_pe_or_zero_ma_excluded_witness :
    recPEZero ∉ final_results defaultThresholds [recPEZero] ∧
    recMAZero ∉ final_results defaultThresholds [recMAZero] :=
  ⟨(zero_pe_or_zero_ma_excluded [recPEZero] recPEZero).1 rfl,
   (zero_pe_or_zero_ma_excluded [recMAZero] recMAZero).2 rfl⟩

/-- C5: the Filter Engine is idempotent — filtering its own output with
the same thresholds returns that output unchanged. -/
theorem final_results_idempotent (t : Thresholds) (df : List StockRecord) :
    final_results t (final_results t df) = final_results t df := by
  rw [final_results, final_results]
  exact List.filter_eq_self.mpr (fun a ha => (List.mem_filter.mp ha).2)

/-- C6: lowering only the max_pe threshold shrinks the passing set: the
output under the tighter bound is a subset of (and no longer than) the
output under the original bound. -/
theorem final_results_monotone_max_pe (df : List StockRecord)
    (t : Thresholds) (p' : ℚ) (h : p' ≤ t.max_pe) :
    (∀ r, r ∈ final_results
        (Thresholds.mk p' t.max_pb t.min_div_yield t.min_avg_volume) df →
      r ∈ final_results t df) ∧
    (final_results
        (Thresholds.mk p' t.max_pb t.min_div_yield t.min_avg_volume) df).length ≤
      (final_results t df).length := by
  have himp : ∀ r : StockRecord,
      final_filter (Thresholds.mk p' t.max_pb t.min_div_yield t.min_avg_volume) r →
      final_filter t r := by
    intro r hr
    rw [final_filter_eq_true_iff] at hr ⊢
    exact ⟨lt_of_lt_of_le hr.1 h, hr.2⟩
  have hsub := List.monotone_filter_right df himp
  exact ⟨fun r hr => hsub.subset hr, hsub.length_le⟩

/-- Witness for C6: tightening max_pe from 25.0 to 20 on the singleton
set of record X does not enlarge the output. -/
theorem final_results_monotone_max_pe_witness :
    (final_results (Thresholds.mk 20 1.5 0.02 100000) [recX]).length ≤
      (final_results defaultThresholds [recX]).length :=
  (final_results_monotone_max_pe [recX] defaultThresholds 20
    (by norm_num [defaultThresholds])).2

/-! ### The Indicator Calculator -/

/-- C2: a window with fewer than 200 observations yields the sentinel 0;
a window with at least 200 observations yields the arithmetic mean of
its last 200 closing prices, independently of the order and content of
everything before that trailing slice (the window is written as an
arbitrary list followed by its trailing 200 points). -/
theorem ma_200_of_spec :
    (∀ history : List ℚ, history.length < 200 → ma_200_of history = 0) ∧
    (∀ before last : List ℚ, last.length = 200 →
      ma_200_of (before ++ last) = last.sum / 200) := by
  constructor
  · intro history hlen
    rw [ma_200_of, if_neg]
    omega
  · intro p s hs
    have hge : 200 ≤ (p ++ s).length := by
      simp [hs]
    have hsub : (p ++ s).length - 200 = p.length := by
      simp [hs]
    rw [ma_200_of, if_pos hge, hsub, List.drop_left]

/-- Witness for C2: a 199-point window yields 0, and a window made of a
single junk point followed by 200 constant closes at 2 yields the mean
of those 200 closes. -/
theorem ma_200_of_spec_witness :
    ma_200_of (List.replicate 199 (1 : ℚ)) = 0 ∧
    ma_200_of ([7] ++ List.replicate 200 (2 : ℚ)) =
      (List.replicate 200 (2 : ℚ)).sum / 200 :=
  ⟨ma_200_of_spec.1 (List.replicate 199 (1 : ℚ))
      (by rw [List.length_replicate]; norm_num),
   ma_200_of_spec.2 [7] (List.replicate 200 (2 : ℚ))
      (List.length_replicate 200 (2 : ℚ))⟩

/-! ### Per-symbol failure handling -/

/-- A ticker whose two provider calls succeed but whose snapshot has no
trailingPE entry: the progress print at lines 148-149 then raises
TypeError (format specifier :.2f applied to None), after the record was
already appended at line 145. -/
def pePrintFail : TickerFetch :=
  TickerFetch.mk "NOPE"
    (some (Info.mk (some "NoPE Corp") (some "Tech") none (some 1)
      (some 500000) (some 0.03) (some 110)))
    (some [])

/-- A ticker whose stock.info call raises. -/
def infoFail : TickerFetch :=
  TickerFetch.mk "FAIL" none (some [])

/-- A ticker whose two provider calls succeed and whose snapshot is
complete. -/
def okFetch : TickerFetch :=
  TickerFetch.mk "OK"
    (some (Info.mk (some "OK Corp") (some "Tech") (some 18) (some 1.2)
      (some 500000) (some 0.03) (some 110)))
    (some [])

/-- Counterexample to C3 as stated: for the ticker pePrintFail the
iteration raises an exception (the progress print fails on the missing
P/E), yet the symbol still contributes its record to the result list. -/
theorem step_exception_can_still_contribute :
    stepRaises pePrintFail = true ∧
    get_stock_data [pePrintFail] ≠ [] ∧
    (get_stock_data [pePrintFail]).map RawRecord.symbol = ["NOPE"] := by
  refine ⟨rfl, ?_, rfl⟩
  decide

/-- C3 (amended): a symbol whose fundamentals fetch (stock.info) or
history fetch raises contributes no record — not even a partial one —
and processing continues with the remaining symbols; only an exception
raised by the progress print after the append can leave a record of a
failing symbol in place. -/
theorem get_stock_data_skips_fetch_failures
    (pre post : List TickerFetch) (t : TickerFetch)
    (h : t.info = none ∨ t.history = none) :
    fetchResult t = none ∧
    get_stock_data (pre ++ t :: post) =
      get_stock_data pre ++ get_stock_data post := by
  have hres : fetchResult t = none := by
    rcases h with h | h
    · rw [fetchResult, h]
    · rw [fetchResult, h]
      cases t.info <;> rfl
  refine ⟨hres, ?_⟩
  rw [get_stock_data, get_stock_data, get_stock_data,
    List.filterMap_append, List.filterMap_cons_none hres]

/-- Witness for the amended C3: a failing fetch between two successful
ones is dropped while both neighbours survive. -/
theorem get_stock_data_skips_fetch_failures_witness :
    fetchResult infoFail = none ∧
    get_stock_data ([okFetch] ++ infoFail :: [pePrintFail]) =
      get_stock_data [okFetch] ++ get_stock_data [pePrintFail] :=
  get_stock_data_skips_fetch_failures [okFetch] [pePrintFail] infoFail
    (Or.inl rfl)

/-! ### Symbol normalization -/

/-- Literal replacement with a one-character pattern is the elementwise
replacement of that character. -/
theorem replaceAll_single (a b : Char) (s : List Char) :
    replaceAll [a] [b] s = s.map (fun c => if c = a then b else c) := by
  induction s with
  | nil =>
    rw [replaceAll]
    rfl
  | cons c rest ih =>
    rw [replaceAll]
    by_cases hc : c = a
    · subst hc
      simp [List.isPrefixOf, ih]
    · have hne : ¬ (a == c) = true := by
        simp [BEq.beq]
        exact fun he => hc he.symm
      simp [List.isPrefixOf, hne, hc, ih]

/-- The characters of a normalized source-A symbol are those of the raw
symbol with . replaced by - elementwise. -/
theorem sp500_normalize_data (s : String) :
    (sp500_normalize s).data =
      s.data.map (fun c => if c = '.' then '-' else c) :=
  replaceAll_single '.' '-' s.data

/-- Identifying two strings by their character lists, the normalized
source-A symbol is the characterwise replacement. -/
theorem sp500_normalize_eq (s : String) :
    sp500_normalize s =
      String.mk (s.data.map (fun c => if c = '.' then '-' else c)) :=
  String.ext (sp500_normalize_data s)

/-- C7: source-A normalization replaces every occurrence of the
character . by - in every symbol of the extracted column (in
particular BRK.B becomes BRK-B), and source-B normalization appends the
fixed suffix .L to every symbol of its column (SHEL becomes SHEL.L). -/
theorem ticker_normalization :
    (∀ s : String, (sp500_normalize s).data =
      s.data.map (fun c => if c = '.' then '-' else c)) ∧
    (∀ col : List String,
      get_sp500_tickers (some col) = col.map sp500_normalize) ∧
    (∀ col : List String,
      get_ftse100_tickers (some col) = col.map (fun s => s ++ ".L")) ∧
    sp500_normalize "BRK.B" = "BRK-B" ∧
    ftse_normalize "SHEL" = "SHEL.L" := by
  refine ⟨sp500_normalize_data, fun col => rfl, fun col => rfl, ?_, rfl⟩
  rw [sp500_normalize_eq]
  decide

/-! ### Ticker list combination and failure policy -/

/-- C8: a failed fetch or parse yields the empty list for that source
while the other source's list is still produced; the combined list is
the first 20 symbols of source A followed by the first 20 symbols of
source B, truncation really caps each source at 20, and duplicates are
kept (no deduplication). -/
theorem get_stock_tickers_spec :
    get_stock_tickers none none = [] ∧
    (∀ b, get_stock_tickers none b = (get_ftse100_tickers b).take 20) ∧
    (∀ a, get_stock_tickers a none = (get_sp500_tickers a).take 20) ∧
    (∀ a b, get_stock_tickers a b =
      (get_sp500_tickers a).take 20 ++ (get_ftse100_tickers b).take 20) ∧
    (get_stock_tickers (some (List.replicate 25 "AAPL")) none).length = 20 ∧
    get_stock_tickers (some ["AAPL", "AAPL"]) (some ["AAPL"]) =
      ["AAPL", "AAPL", "AAPL.L"] := by
  refine ⟨rfl, ?_, ?_, fun a b => rfl, ?_, ?_⟩
  · intro b
    rw [get_stock_tickers]
    rfl
  · intro a
    rw [get_stock_tickers]
    simp [get_ftse100_tickers]
  · rw [get_stock_tickers]
    simp [get_sp500_tickers, get_ftse100_tickers, List.length_take]
  · rw [get_stock_tickers]
    have h1 : sp500_normalize "AAPL" = "AAPL" := by
      rw [sp500_normalize_eq]
      decide
    simp [get_sp500_tickers, get_ftse100_tickers, ftse_normalize, h1]

/-! ### Reporter -/

/-- C9: when no input record satisfies all six conditions the Reporter
emits the no-match notice and attempts no persistence; when the
filtered set is non-empty a persistence attempt is made, a failing save
is logged, and either way the run completes normally. -/
theorem report_spec (df : List StockRecord) (t : Thresholds)
    (saveOk : Bool) :
    ((∀ r ∈ df, final_filter t r = false) →
      report (final_results t df) saveOk =
        ReportOutcome.mk true false false true) ∧
    (final_results t df ≠ [] →
      report (final_results t df) saveOk =
        ReportOutcome.mk false true (!saveOk) true) := by
  constructor
  · intro hall
    have hnil : final_results t df = [] := by
      rw [final_results, List.filter_eq_nil_iff]
      intro a ha
      simp [hall a ha]
    rw [hnil]
    rfl
  · intro hne
    rw [report, if_neg]
    simpa using hne

/-- Witness for C9: the Reporter on the empty filtered set of a
nowhere-passing input, and on the non-empty filtered set of a passing
input with a failing save. -/
theorem report_spec_witness :
    report (final_results defaultThresholds [recPEZero]) true =
      ReportOutcome.mk true false false true ∧
    report (final_results defaultThresholds [recX]) false =
      ReportOutcome.mk false true true true := by
  have hz : final_filter defaultThresholds recPEZero = false := by
    rw [← Bool.not_eq_true, final_filter_eq_true_iff]
    norm_num [recPEZero, defaultThresholds]
  have hX : final_filter defaultThresholds recX = true := by
    rw [final_filter_eq_true_iff]
    norm_num [recX, defaultThresholds]
  refine ⟨(report_spec [recPEZero] defaultThresholds true).1 ?_,
    (report_spec [recX] defaultThresholds false).2 ?_⟩
  · intro r hr
    rw [List.mem_singleton] at hr
    rw [hr]
    exact hz
  · simp [final_results, List.filter, hX]

/-! ### DataFrame cleaning -/

/-- C10: fillna(0) leaves no missing cell in any column of any
assembled row, and a row whose company or sector was absent from the
snapshot carries the number 0 in that cell — not an empty string (the
same numeric defaulting applies to the numeric columns, e.g. P/E). -/
theorem fillna0_no_nulls (r : RawRecord) :
    hasNull (fillna0 (toDFRow r)) = false ∧
    (r.company = none →
      (fillna0 (toDFRow r)).company = some (CellValue.num 0)) ∧
    (r.sector = none →
      (fillna0 (toDFRow r)).sector = some (CellValue.num 0)) ∧
    (r.pe = none →
      (fillna0 (toDFRow r)).pe = some (CellValue.num 0)) ∧
    (∀ s : String, r.company = none →
      (fillna0 (toDFRow r)).company ≠ some (CellValue.str s)) := by
  refine ⟨?_, ?_, ?_, ?_, ?_⟩
  · rfl
  · intro h
    simp [fillna0, toDFRow, h]
  · intro h
    simp [fillna0, toDFRow, h]
  · intro h
    simp [fillna0, toDFRow, h]
  · intro s h
    simp [fillna0, toDFRow, h]

/-- Witness for C10: a raw record with company, sector and P/E all
absent is cleaned into numeric zeros, never into a string. -/
theorem fillna0_no_nulls_witness :
    hasNull (fillna0 (toDFRow
      (RawRecord.mk "GAP" none none none (some 1.2) (some 500000)
        (some 0.03) (some 110) 100))) = false ∧
    (fillna0 (toDFRow
      (RawRecord.mk "GAP" none none none (some 1.2) (some 500000)
        (some 0.03) (some 110) 100))).company = some (CellValue.num 0) ∧
    (fillna0 (toDFRow
      (RawRecord.mk "GAP" none none none (some 1.2) (some 500000)
        (some 0.03) (some 110) 100))).company ≠ some (CellValue.str "") := by
  have h := fillna0_no_nulls
    (RawRecord.mk "GAP" none none none (some 1.2) (some 500000)
      (some 0.03) (some 110) 100)
  exact ⟨h.1, h.2.1 rfl, h.2.2.2.2 "" rfl⟩

end ScreenTracker
